import Mathlib

/-!
Verification development for the in-process job-scheduling engine
(package `jobscheduler` with its internal `executor` package).

Shallow embedding conventions:
* byte buffers are `List Nat`;
* Go `int`/`int64`/`time.Duration` are `Int` (nanoseconds for durations);
* a Go `error` value is `Option GoErr` (`none` = nil);
* the nondeterministic runtime outcome of a subprocess (which select arm
  fires, what `cmd.Wait` returned) is an explicit parameter of the embedded
  function, so every embedded operation is a pure function of its inputs.
-/

namespace JobScheduler

/-- Go error values that flow through the engine.  `deadlineExceeded` and
`canceled` are the `context.DeadlineExceeded` / `context.Canceled` sentinel
values (compared by identity in Go, hence by constructor equality here);
`exitError` is a `*exec.ExitError` carrying the child exit code;
`errorf` is a fresh error produced by `fmt.Errorf` (never identical to a
sentinel, even when its message was formatted from one). -/
inductive GoErr
  | deadlineExceeded
  | canceled
  | exitError (code : Int)
  | shortWrite
  | errorf (msg : String)
deriving DecidableEq, Repr

/-- The `Error()` string of each modelled Go error value. -/
def GoErr.message : GoErr → String
  | .deadlineExceeded => "context deadline exceeded"
  | .canceled => "context canceled"
  | .exitError code => "exit status " ++ toString code
  | .shortWrite => "short write"
  | .errorf m => m

/-- `LimitedWriter` (executor package): an `io.Writer` wrapping an underlying
buffer `W` with `N` bytes of budget remaining.  The underlying writer in
`Execute` is a `bytes.Buffer`, which appends everything it is given and never
fails, so the buffer is embedded directly as the byte list `buf`. -/
structure LimitedWriter where
  buf : List Nat
  n : Int
deriving DecidableEq, Repr

/-- `LimitedWriter.Write`: if the budget is exhausted (`N <= 0`) report
`io.ErrShortWrite` (the `Bool` component is `true` iff an error is returned)
and write nothing; otherwise truncate `p` to the budget, append it to the
buffer, and decrement the budget by the number of bytes written. -/
def LimitedWriter.write (l : LimitedWriter) (p : List Nat) : LimitedWriter × Nat × Bool :=
  if l.n ≤ 0 then (l, 0, true)
  else
    let q := if (p.length : Int) > l.n then p.take l.n.toNat else p
    ({ buf := l.buf ++ q, n := l.n - q.length }, q.length, false)

/-- Feed a sequence of writes through a `LimitedWriter`, keeping the final
writer state. -/
def runWrites (l : LimitedWriter) (ws : List (List Nat)) : LimitedWriter :=
  ws.foldl (fun acc p => (acc.write p).1) l

/-- Output capture in `Execute`: when `OutputLimit > 0` the stream goes
through a `LimitedWriter` with budget `OutputLimit`; otherwise it is captured
unboundedly in a plain `bytes.Buffer`. -/
def capture (outputLimit : Int) (ws : List (List Nat)) : List Nat :=
  if 0 < outputLimit then (runWrites { buf := [], n := outputLimit } ws).buf
  else ws.foldl (fun a p => a ++ p) []

/-- Process-registry insertion (`e.processes[execID] = cmd`): Go map key
assignment. -/
def regAdd (r : List String) (id : String) : List String :=
  if id ∈ r then r else id :: r

/-- Process-registry removal (`delete(e.processes, execID)`). -/
def regRemove (r : List String) (id : String) : List String :=
  r.filter (fun x => x ≠ id)

/-- `ExecutionResult` of the executor package.  `StartTime`/`EndTime` carry no
information relevant to the claims and are omitted; `executionID` is the
opaque id. -/
structure ExecutionResult where
  exitCode : Int
  stdout : List Nat
  stderr : List Nat
  executionID : String
deriving DecidableEq, Repr

/-- What a single `Execute` call produced: the `ExecutionResult`, the returned
Go error, the registry as it stands between registration and the deferred
deregistration, and the registry after `Execute` returns. -/
structure ExecOutput where
  result : ExecutionResult
  err : Option GoErr
  regDuring : List String
  regFinal : List String
deriving DecidableEq, Repr

/-- The runtime outcome of one `Execute` call, an input of the embedding:
`spawnFailure` — `cmd.Start()` failed with the given message;
`completed` — the `done` channel won the select, carrying `cmd.Wait()`'s
error; `ctxDone` — `ctx.Done()` won the select, carrying the error returned
by `handleTimeout` (the child's wait error after the interrupt, or the
forceful-kill error, or nil). -/
inductive ExecOutcome
  | spawnFailure (msg : String)
  | completed (waitErr : Option GoErr)
  | ctxDone (timeoutErr : Option GoErr)
deriving DecidableEq, Repr

/-- Tail of `Execute` after the child was started: capture the (possibly
truncated) output, then derive the exit code from `execErr` — a
`*exec.ExitError` yields its exit code, any other non-nil error yields `-1`,
and a non-nil error is re-wrapped by `fmt.Errorf("execution failed: %v", …)`. -/
def executeFinish (execID : String) (outputLimit : Int)
    (outWrites errWrites : List (List Nat)) (execErr : Option GoErr)
    (regDuring regFinal : List String) : ExecOutput :=
  let so := capture outputLimit outWrites
  let se := capture outputLimit errWrites
  match execErr with
  | some e =>
      let code : Int := match e with | .exitError c => c | _ => -1
      { result := { exitCode := code, stdout := so, stderr := se, executionID := execID },
        err := some (.errorf ("execution failed: " ++ e.message)),
        regDuring, regFinal }
  | none =>
      { result := { exitCode := 0, stdout := so, stderr := se, executionID := execID },
        err := none, regDuring, regFinal }

/-- `Executor.Execute`: register the command under `execID` (before
`cmd.Start()`), defer deregistration, then: on spawn failure return the early
result — whose `ExitCode` still holds the zero value `0` and whose output
buffers were never filled — wrapped error non-nil; otherwise wait for
completion or context cancellation and finish via `executeFinish`.
Environment composition, working-directory resolution and stdin attachment
have no bearing on any claim and are not modelled. -/
def Execute (reg : List String) (execID : String) (outputLimit : Int)
    (outWrites errWrites : List (List Nat)) (outcome : ExecOutcome) : ExecOutput :=
  let regDuring := regAdd reg execID
  let regFinal := regRemove regDuring execID
  match outcome with
  | .spawnFailure msg =>
      { result := { exitCode := 0, stdout := [], stderr := [], executionID := execID },
        err := some (.errorf ("failed to start process: " ++ msg)),
        regDuring, regFinal }
  | .completed execErr =>
      executeFinish execID outputLimit outWrites errWrites execErr regDuring regFinal
  | .ctxDone execErr =>
      executeFinish execID outputLimit outWrites errWrites execErr regDuring regFinal

/-- `Executor.ListProcesses`: snapshot of the registered execution ids. -/
def ListProcesses (reg : List String) : List String := reg

/-- `Executor.KillProcess`: look up the id; if absent return a not-found
error and leave the registry untouched; if present forward `forceKill`'s
result (`killErr`, an input since it depends on the live process), again
without mutating the registry (deregistration happens only in `Execute`'s
deferred cleanup). -/
def KillProcess (reg : List String) (execID : String) (killErr : Option String) :
    List String × Option String :=
  if execID ∈ reg then (reg, killErr)
  else (reg, some ("process " ++ execID ++ " not found"))

/-- `JobStatus` (jobscheduler package): the six lifecycle states. -/
inductive JobStatus
  | pending
  | running
  | complete
  | failed
  | timedOut
  | cancelled
deriving DecidableEq, Repr

/-- `ApplicationConfig`: descriptor of the external application to run. -/
structure ApplicationConfig where
  name : String
  path : String
  args : List String
  env : List (String × String)
  workingDir : String
  passPayload : Bool
deriving DecidableEq, Repr

/-- `JobPayload`: the job record.  `timeout` is in nanoseconds
(`time.Duration`); `startTime`/`endTime` are `Option Int` wall-clock stamps
(`none` = Go zero `time.Time`). -/
structure JobPayload where
  id : String
  channel : String
  workers : Int
  timeout : Int
  body : List Nat
  application : Option ApplicationConfig
  status : JobStatus
  error : String
  startTime : Option Int
  endTime : Option Int
deriving DecidableEq, Repr

/-- `JobPayload.Validate`: the returned `Option String` is the error message
(`none` = nil error). -/
def JobPayload.Validate (j : JobPayload) : Option String :=
  if j.id = "" then some "job ID cannot be empty"
  else if j.channel = "" then some "channel cannot be empty"
  else if j.workers < 0 then some "workers cannot be negative"
  else
    match j.application with
    | some a => if a.path = "" then some "application path cannot be empty" else none
    | none => none

/-- One second in nanoseconds (`time.Second`). -/
def nsPerSecond : Int := 1000000000

/-- Scheduler `Config`. -/
structure Config where
  processingLogPath : String
  defaultWorkers : Int
  defaultTimeout : Int
  maxQueueSize : Int
  workDir : String
  maxOutputSize : Int
  shutdownTimeout : Int
  channelBufferSize : Int
deriving DecidableEq, Repr

/-- `Config.Validate`, field checks in source order. -/
def Config.Validate (c : Config) : Option String :=
  if c.processingLogPath = "" then some "processing log path cannot be empty"
  else if c.defaultWorkers < 1 then some "default workers must be at least 1"
  else if c.defaultTimeout < nsPerSecond then some "default timeout must be at least 1 second"
  else if c.maxQueueSize < 1 then some "max queue size must be at least 1"
  else if c.workDir = "" then some "work directory cannot be empty"
  else if c.shutdownTimeout < nsPerSecond then some "shutdown timeout must be at least 1 second"
  else if c.channelBufferSize < 1 then some "channel buffer size must be at least 1"
  else none

/-- A `Channel`: its buffered job queue is embedded as the list of currently
buffered jobs plus the capacity fixed at `make(chan JobPayload, …)` time. -/
structure Channel where
  name : String
  jobs : List JobPayload
  capacity : Int
  workers : Int
  timeout : Int
deriving DecidableEq, Repr

/-- `ChannelStats`.  `lastJobTime = none` is the Go zero `time.Time`. -/
structure ChannelStats where
  workers : Int
  activeJobs : List String
  totalJobs : Int
  failedJobs : Int
  lastJobTime : Option Int
deriving DecidableEq, Repr

/-- The zero `ChannelStats` value installed at channel creation
(`&ChannelStats{}`). -/
def ChannelStats.zero : ChannelStats :=
  { workers := 0, activeJobs := [], totalJobs := 0, failedJobs := 0, lastJobTime := none }

/-- Go map lookup on an association list. -/
def mapLookup {α : Type} (m : List (String × α)) (k : String) : Option α :=
  match m with
  | [] => none
  | (k2, v) :: rest => if k2 = k then some v else mapLookup rest k

/-- Go map key assignment on an association list. -/
def mapInsert {α : Type} (m : List (String × α)) (k : String) (v : α) :
    List (String × α) :=
  match m with
  | [] => [(k, v)]
  | (k2, w) :: rest => if k2 = k then (k2, v) :: rest else (k2, w) :: mapInsert rest k v

/-- The `Scheduler`'s registry state: configuration, channel map and
statistics map.  The executor, process log and cancellation scope are
modelled where the claims need them (`Execute`, `processJob`, `Shutdown`). -/
structure Scheduler where
  config : Config
  channels : List (String × Channel)
  stats : List (String × ChannelStats)
deriving DecidableEq, Repr

/-- `getOrCreateChannel`: return the existing channel unchanged, or create
one whose worker count falls back to `DefaultWorkers` when the job's hint is
not positive, whose timeout falls back to `DefaultTimeout` likewise, and
whose queue capacity is `ChannelBufferSize`; a zero statistics record is
installed alongside.  (Starting the processor goroutine has no effect on the
registry state modelled here.) -/
def getOrCreateChannel (s : Scheduler) (job : JobPayload) : Scheduler × Channel :=
  match mapLookup s.channels job.channel with
  | some ch => (s, ch)
  | none =>
      let workers := if job.workers ≤ 0 then s.config.defaultWorkers else job.workers
      let timeout := if job.timeout ≤ 0 then s.config.defaultTimeout else job.timeout
      let ch : Channel :=
        { name := job.channel, jobs := [], capacity := s.config.channelBufferSize,
          workers := workers, timeout := timeout }
      ({ s with channels := mapInsert s.channels job.channel ch,
                stats := mapInsert s.stats job.channel ChannelStats.zero }, ch)

/-- `updateStatsForNewJob`: bump `TotalJobs` and stamp `LastJobTime`.  (In the
source the stats record is always present here, since `SubmitJob` calls this
only after `getOrCreateChannel`.) -/
def updateStatsForNewJob (s : Scheduler) (channelName : String) (now : Int) : Scheduler :=
  match mapLookup s.stats channelName with
  | some st =>
      let st1 := { st with totalJobs := st.totalJobs + 1, lastJobTime := some now }
      { s with stats := mapInsert s.stats channelName st1 }
  | none => s

/-- `SubmitJob`: validate, get-or-create the channel, mark the job pending
and stamp `StartTime`, then attempt the non-blocking send.  A send on a Go
buffered channel succeeds exactly when the buffer is not full (a waiting
receiver implies an empty buffer), so the default branch fires iff the queue
already holds `capacity` jobs; in that case the job is dropped and the
statistics are untouched. -/
def SubmitJob (s : Scheduler) (job : JobPayload) (now : Int) : Scheduler × Option String :=
  match job.Validate with
  | some e => (s, some ("invalid job payload: " ++ e))
  | none =>
      let s1 := (getOrCreateChannel s job).1
      let ch := (getOrCreateChannel s job).2
      let job1 := { job with status := JobStatus.pending, startTime := some now }
      if (ch.jobs.length : Int) < ch.capacity then
        let ch1 := { ch with jobs := ch.jobs ++ [job1] }
        let s2 := { s1 with channels := mapInsert s1.channels job.channel ch1 }
        (updateStatsForNewJob s2 job.channel now, none)
      else
        (s1, some ("channel " ++ job.channel ++ " is full"))

/-- Abbreviated rendering of a Go `time.Duration` (the source formats it with
`%v`); no claim depends on the exact digits, only on the surrounding
"job timed out after " text. -/
def formatDuration (ns : Int) : String := toString ns ++ "ns"

/-- The runtime outcome of `processRegularJob`'s select: either the job
context fired first (carrying `ctx.Err()`, which Go guarantees is the
`DeadlineExceeded` sentinel when the deadline fired and the `Canceled`
sentinel when an ancestor was cancelled), or the 100 ms timer fired. -/
inductive RegularOutcome
  | ctxDone (ctxErr : GoErr)
  | timerFired
deriving DecidableEq, Repr

/-- `processRegularJob`: the payload-only path returns `ctx.Err()` when the
job context is done, and nil after the 100 ms sleep. -/
def processRegularJob (ro : RegularOutcome) : Option GoErr :=
  match ro with
  | .ctxDone e => some e
  | .timerFired => none

/-- Runtime outcome of `executeApplication`'s call into the supervisor:
the `Execute` outcome plus the byte chunks the child wrote to each stream. -/
structure AppRun where
  outcome : ExecOutcome
  outWrites : List (List Nat)
  errWrites : List (List Nat)
deriving DecidableEq, Repr

/-- The status-update block at the end of the source's `processJob`: nil
error → `complete`; an error that *is* the `context.DeadlineExceeded`
sentinel (the source compares with `==`, i.e. by identity) → `timed_out`
with the "job timed out after …" message; any other error → `failed` with
that error's message.  `EndTime` is stamped in every branch. -/
def terminalUpdate (timeout : Int) (job1 : JobPayload) (err : Option GoErr)
    (endNow : Int) : JobPayload :=
  match err with
  | none => { job1 with status := JobStatus.complete, endTime := some endNow }
  | some e =>
      if e = GoErr.deadlineExceeded then
        { job1 with status := JobStatus.timedOut,
                    error := "job timed out after " ++ formatDuration timeout,
                    endTime := some endNow }
      else
        { job1 with status := JobStatus.failed, error := e.message,
                    endTime := some endNow }

/-- `processJob` for a channel with per-job deadline `timeout` (ns): record
the job as running with a fresh `StartTime`, run either the supervisor path
(when `Application` is present, the error being exactly what `Execute`
returned) or the payload-only path, then apply `terminalUpdate`.  Returns
the finished job and the supervisor registry after the call. -/
def processJob (timeout maxOutputSize : Int) (job : JobPayload)
    (reg : List String) (execID : String)
    (appRun : AppRun) (regRun : RegularOutcome) (now endNow : Int) :
    JobPayload × List String :=
  let stage :=
    match job.application with
    | some _ =>
        let o := Execute reg execID maxOutputSize appRun.outWrites appRun.errWrites appRun.outcome
        (o.err, o.regFinal)
    | none => (processRegularJob regRun, reg)
  let job1 := { job with status := JobStatus.running, startTime := some now }
  (terminalUpdate timeout job1 stage.1 endNow, stage.2)

/-- Dequeue one job from a channel's buffer (the dispatcher's receive). -/
def dispatchOne (s : Scheduler) (channelName : String) : Scheduler × Option JobPayload :=
  match mapLookup s.channels channelName with
  | none => (s, none)
  | some ch =>
      match ch.jobs with
      | [] => (s, none)
      | j :: rest =>
          let ch1 := { ch with jobs := rest }
          ({ s with channels := mapInsert s.channels channelName ch1 }, some j)

/-- The submit → dispatch → process pipeline for a single job.  The
`Processor` holds only `{Channel, Executor, ProcessLog, MaxOutputSize}` — no
handle on the scheduler's statistics map — so processing a job leaves
`Scheduler.stats` exactly as submission left it; this composite makes that
explicit by threading the scheduler state through unchanged across
`processJob`. -/
def submitThenProcess (s : Scheduler) (job : JobPayload) (now endNow : Int)
    (reg : List String) (execID : String) (appRun : AppRun) (regRun : RegularOutcome) :
    Scheduler × Option (JobPayload × List String) :=
  match SubmitJob s job now with
  | (s1, some _) => (s1, none)
  | (s1, none) =>
      match dispatchOne s1 job.channel with
      | (s2, none) => (s2, none)
      | (s2, some j) =>
          match mapLookup s2.channels job.channel with
          | none => (s2, none)
          | some ch =>
              (s2, some (processJob ch.timeout s2.config.maxOutputSize j reg execID
                           appRun regRun now endNow))

/-- The scheduler runtime state that `Shutdown` touches: the root
cancellation scope, whether the process log file is still open, and the
supervisor's process registry. -/
structure SchedulerRT where
  cancelled : Bool
  logOpen : Bool
  processes : List String
deriving DecidableEq, Repr

/-- `Shutdown`: cancel the root scope, wait for the processors (no modelled
state), `Cleanup()` the executor (kills and deregisters every live child),
then close the process log.  `os.File.Close` on an already-closed file
returns an error, which `Shutdown` wraps and returns; on a first, successful
close it returns nil. -/
def Shutdown (s : SchedulerRT) : SchedulerRT × Option String :=
  let s1 : SchedulerRT := { cancelled := true, logOpen := s.logOpen, processes := [] }
  if s.logOpen then ({ s1 with logOpen := false }, none)
  else (s1, some "failed to close process log: file already closed")

/-- Dispatcher/worker-pool state of one channel's `Processor`: the buffered
queue contents, the jobs whose goroutine holds a worker slot but has not yet
entered `processJob`, the jobs currently inside `processJob` (status
*running*), and the count of goroutines whose `processJob` returned but whose
deferred slot release has not yet run. -/
structure ProcState where
  queue : List String
  spawned : List String
  running : List String
  exiting : Nat
deriving DecidableEq, Repr

/-- Occupancy of the worker-pool semaphore (`workerPool` buffered channel):
every spawned, running, or exiting goroutine holds exactly one slot. -/
def slotsUsed (st : ProcState) : Nat :=
  st.spawned.length + st.running.length + st.exiting

/-- Atomic steps of one channel's dispatch loop, with worker-pool capacity
`workers` and queue capacity `capacity`:
`enqueue` — a successful `SubmitJob` send (needs buffer space);
`dispatch` — the loop receives the head job and blocks until
`p.workerPool <- struct{}{}` succeeds, i.e. until a slot is free;
`enter` — the spawned goroutine enters `processJob`;
`finish` — `processJob` returns;
`release` — the deferred `<-p.workerPool` frees the slot. -/
inductive ProcStep (workers capacity : Nat) : ProcState → ProcState → Prop
  | enqueue (st : ProcState) (j : String) :
      st.queue.length < capacity →
      ProcStep workers capacity st { st with queue := st.queue ++ [j] }
  | dispatch (st : ProcState) (j : String) (q : List String) :
      st.queue = j :: q →
      slotsUsed st < workers →
      ProcStep workers capacity st { st with queue := q, spawned := j :: st.spawned }
  | enter (st : ProcState) (j : String) :
      j ∈ st.spawned →
      ProcStep workers capacity st
        { st with spawned := st.spawned.erase j, running := j :: st.running }
  | finish (st : ProcState) (j : String) :
      j ∈ st.running →
      ProcStep workers capacity st
        { st with running := st.running.erase j, exiting := st.exiting + 1 }
  | release (st : ProcState) :
      0 < st.exiting →
      ProcStep workers capacity st { st with exiting := st.exiting - 1 }

/-- Reflexive-transitive closure of `ProcStep`. -/
inductive ProcReach (workers capacity : Nat) : ProcState → ProcState → Prop
  | refl (st : ProcState) : ProcReach workers capacity st st
  | tail {a b c : ProcState} : ProcReach workers capacity a b →
      ProcStep workers capacity b c → ProcReach workers capacity a c

/-- The dispatcher's initial state: whatever is queued, no goroutine yet. -/
def procInit (queue : List String) : ProcState :=
  { queue := queue, spawned := [], running := [], exiting := 0 }

/-! Concrete instances, used by witnesses and counterexamples below.  The
configuration mirrors the repository test configuration; the jobs mirror its
test jobs. -/

/-- The `sleep 1` application of the repository's timeout test. -/
def sleepApp : ApplicationConfig :=
  { name := "sleep", path := "sleep", args := ["1"], env := [], workingDir := "",
    passPayload := false }

/-- The repository timeout-test job: `sleep 1` under a 100 ms timeout. -/
def timeoutAppJob : JobPayload :=
  { id := "test-job-3", channel := "timeout-channel", workers := 0, timeout := 100000000,
    body := [], application := some sleepApp, status := JobStatus.pending, error := "",
    startTime := none, endTime := none }

/-- A payload-only job (no application descriptor). -/
def payloadJob : JobPayload :=
  { id := "j1", channel := "a", workers := 0, timeout := 0, body := [123, 125],
    application := none, status := JobStatus.pending, error := "",
    startTime := none, endTime := none }

/-- The repository test configuration (durations in nanoseconds). -/
def cfgTest : Config :=
  { processingLogPath := "processing.log", defaultWorkers := 2,
    defaultTimeout := 5000000000, maxQueueSize := 100, workDir := "/tmp/jobscheduler",
    maxOutputSize := 1024, shutdownTimeout := 5000000000, channelBufferSize := 10 }

/-- A freshly constructed scheduler: empty channel and stats registries. -/
def schedFresh : Scheduler := { config := cfgTest, channels := [], stats := [] }

/-- Test configuration with `ChannelBufferSize = 1` (the queue-full
scenario). -/
def cfgOne : Config := { cfgTest with channelBufferSize := 1 }

/-- A capacity-1 channel whose buffer already holds one job. -/
def chanOne : Channel :=
  { name := "full-channel", jobs := [payloadJob], capacity := 1, workers := 1,
    timeout := nsPerSecond }

/-- A capacity-1 channel with an empty buffer. -/
def chanEmpty : Channel :=
  { name := "open-channel", jobs := [], capacity := 1, workers := 1,
    timeout := nsPerSecond }

/-- Stats record after one admission. -/
def statsOne : ChannelStats :=
  { ChannelStats.zero with totalJobs := 1, lastJobTime := some 0 }

/-- Scheduler holding the full capacity-1 channel. -/
def schedFull : Scheduler :=
  { config := cfgOne, channels := [("full-channel", chanOne)],
    stats := [("full-channel", statsOne)] }

/-- Scheduler holding the empty capacity-1 channel. -/
def schedOpen : Scheduler :=
  { config := cfgOne, channels := [("open-channel", chanEmpty)],
    stats := [("open-channel", ChannelStats.zero)] }

/-- A job submitted to the full channel. -/
def jobFull : JobPayload := { payloadJob with id := "j2", channel := "full-channel" }

/-- A job submitted to the open channel. -/
def jobOpen : JobPayload := { payloadJob with id := "j3", channel := "open-channel" }

/-- Pipeline run: a payload-only job on "timeout-channel" submitted to a
fresh scheduler whose deadline fires (outcome `.ctxDone .deadlineExceeded`). -/
def timedOutPipeline : Scheduler × Option (JobPayload × List String) :=
  submitThenProcess schedFresh ({ timeoutAppJob with application := none }) 0 1 [] "exec_1"
    ⟨.completed none, [], []⟩ (.ctxDone .deadlineExceeded)

/-- Pipeline run: the same job whose context is cancelled instead
(outcome `.ctxDone .canceled`), which the code records as *failed*. -/
def failedPipeline : Scheduler × Option (JobPayload × List String) :=
  submitThenProcess schedFresh ({ timeoutAppJob with application := none }) 0 1 [] "exec_1"
    ⟨.completed none, [], []⟩ (.ctxDone .canceled)

/-! General lemmas about the embedded operations. -/

theorem mapLookup_mapInsert_self {α : Type} (m : List (String × α)) (k : String) (v : α) :
    mapLookup (mapInsert m k v) k = some v := by
  induction m with
  | nil => simp [mapInsert, mapLookup]
  | cons kv rest ih =>
      obtain ⟨k2, w⟩ := kv
      by_cases h : k2 = k <;> simp [mapInsert, mapLookup, h, ih]

theorem LimitedWriter.write_of_nonpos (l : LimitedWriter) (p : List Nat) (h : l.n ≤ 0) :
    l.write p = (l, 0, true) := by
  simp [LimitedWriter.write, h]

theorem LimitedWriter.write_measure (l : LimitedWriter) (p : List Nat) (h : 0 ≤ l.n) :
    0 ≤ (l.write p).1.n ∧
      ((l.write p).1.buf.length : Int) + (l.write p).1.n = (l.buf.length : Int) + l.n := by
  unfold LimitedWriter.write
  by_cases h0 : l.n ≤ 0
  · simp only [h0, if_true]
    exact ⟨h, trivial⟩
  · simp only [h0, if_false]
    by_cases hlen : (p.length : Int) > l.n
    · have htake : ((p.take l.n.toNat).length : Int) = l.n := by
        rw [List.length_take]
        have h1 : l.n.toNat ≤ p.length := Int.toNat_le.mpr (le_of_lt hlen)
        have h2 : ((l.n.toNat : Nat) : Int) = l.n := Int.toNat_of_nonneg (le_of_not_le h0)
        omega
      simp only [hlen, if_true, List.length_append]
      constructor
      · omega
      · push_cast
        omega
    · simp only [hlen, if_false, List.length_append]
      constructor
      · omega
      · push_cast
        omega

theorem runWrites_measure (ws : List (List Nat)) (l : LimitedWriter) (h : 0 ≤ l.n) :
    0 ≤ (runWrites l ws).n ∧
      ((runWrites l ws).buf.length : Int) + (runWrites l ws).n =
        (l.buf.length : Int) + l.n := by
  induction ws generalizing l with
  | nil => exact ⟨h, rfl⟩
  | cons p ws ih =>
      have h1 := LimitedWriter.write_measure l p h
      have h2 := ih ((l.write p).1) h1.1
      simp only [runWrites, List.foldl_cons] at h2 ⊢
      exact ⟨h2.1, by omega⟩

theorem capture_length_le (limit : Int) (ws : List (List Nat)) (h : 0 < limit) :
    ((capture limit ws).length : Int) ≤ limit := by
  unfold capture
  simp only [h, if_true]
  have hm := runWrites_measure ws { buf := [], n := limit } (le_of_lt h)
  simp only [List.length_nil] at hm
  omega

theorem Execute_regDuring (reg : List String) (id : String) (lim : Int)
    (ow ew : List (List Nat)) (oc : ExecOutcome) :
    (Execute reg id lim ow ew oc).regDuring = regAdd reg id := by
  cases oc with
  | spawnFailure m => rfl
  | completed e => cases e <;> rfl
  | ctxDone e => cases e <;> rfl

theorem Execute_regFinal (reg : List String) (id : String) (lim : Int)
    (ow ew : List (List Nat)) (oc : ExecOutcome) :
    (Execute reg id lim ow ew oc).regFinal = regRemove (regAdd reg id) id := by
  cases oc with
  | spawnFailure m => rfl
  | completed e => cases e <;> rfl
  | ctxDone e => cases e <;> rfl

theorem mem_regAdd_self (reg : List String) (id : String) : id ∈ regAdd reg id := by
  unfold regAdd
  by_cases h : id ∈ reg <;> simp [h]

theorem regRemove_regAdd_of_not_mem (reg : List String) (id : String) (h : id ∉ reg) :
    regRemove (regAdd reg id) id = reg := by
  unfold regAdd regRemove
  simp only [h, if_false, List.filter_cons]
  have hid : (decide (id ≠ id)) = false := by simp
  rw [hid]
  simp only [Bool.false_eq_true, if_false]
  exact List.filter_eq_self.mpr (fun a ha => by
    simp only [ne_eq, decide_eq_true_eq]
    exact fun hh => h (hh ▸ ha))

theorem terminalUpdate_status_ne_cancelled (t : Int) (j : JobPayload)
    (e : Option GoErr) (n : Int) :
    (terminalUpdate t j e n).status ≠ JobStatus.cancelled := by
  unfold terminalUpdate
  cases e with
  | none => simp
  | some g => by_cases hg : g = GoErr.deadlineExceeded <;> simp [hg]

theorem processJob_status_ne_cancelled (t m : Int) (job : JobPayload)
    (reg : List String) (id : String) (ar : AppRun) (rr : RegularOutcome)
    (now endNow : Int) :
    (processJob t m job reg id ar rr now endNow).1.status ≠ JobStatus.cancelled := by
  unfold processJob
  exact terminalUpdate_status_ne_cancelled t _ _ endNow

theorem slotsUsed_le_of_step {w c : Nat} {a b : ProcState}
    (h : ProcStep w c a b) (ha : slotsUsed a ≤ w) : slotsUsed b ≤ w := by
  cases h with
  | enqueue j hq => exact ha
  | dispatch j q hq hl =>
      simp only [slotsUsed, List.length_cons] at hl ⊢
      omega
  | enter j hj =>
      have h1 : (a.spawned.erase j).length = a.spawned.length - 1 :=
        List.length_erase_of_mem hj
      have h2 : 0 < a.spawned.length := List.length_pos_of_mem hj
      simp only [slotsUsed, List.length_cons] at ha ⊢
      omega
  | finish j hj =>
      have h1 : (a.running.erase j).length = a.running.length - 1 :=
        List.length_erase_of_mem hj
      have h2 : 0 < a.running.length := List.length_pos_of_mem hj
      simp only [slotsUsed] at ha ⊢
      omega
  | release h0 =>
      simp only [slotsUsed] at ha ⊢
      omega

theorem Execute_err_cases (reg : List String) (id : String) (lim : Int)
    (ow ew : List (List Nat)) (oc : ExecOutcome) :
    (Execute reg id lim ow ew oc).err = none ∨
      ∃ m, (Execute reg id lim ow ew oc).err = some (GoErr.errorf m) := by
  cases oc with
  | spawnFailure m => exact Or.inr ⟨_, rfl⟩
  | completed e =>
      cases e with
      | none => exact Or.inl rfl
      | some g => exact Or.inr ⟨_, rfl⟩
  | ctxDone e =>
      cases e with
      | none => exact Or.inl rfl
      | some g => exact Or.inr ⟨_, rfl⟩

theorem processJob_app_eq (t m : Int) (job : JobPayload) (reg : List String)
    (id : String) (ar : AppRun) (rr : RegularOutcome) (now endNow : Int)
    (a : ApplicationConfig) (happ : job.application = some a) :
    (processJob t m job reg id ar rr now endNow).1 =
      terminalUpdate t ({ job with status := JobStatus.running, startTime := some now })
        (Execute reg id m ar.outWrites ar.errWrites ar.outcome).err endNow := by
  unfold processJob
  rw [happ]

theorem processJob_payload_eq (t m : Int) (job : JobPayload) (reg : List String)
    (id : String) (ar : AppRun) (rr : RegularOutcome) (now endNow : Int)
    (happ : job.application = none) :
    (processJob t m job reg id ar rr now endNow).1 =
      terminalUpdate t ({ job with status := JobStatus.running, startTime := some now })
        (processRegularJob rr) endNow := by
  unfold processJob
  rw [happ]

theorem terminalUpdate_none (t : Int) (j : JobPayload) (n : Int) :
    (terminalUpdate t j none n).status = JobStatus.complete := rfl

theorem terminalUpdate_errorf (t : Int) (j : JobPayload) (m : String) (n : Int) :
    (terminalUpdate t j (some (GoErr.errorf m)) n).status = JobStatus.failed := by
  simp [terminalUpdate]

theorem terminalUpdate_canceled (t : Int) (j : JobPayload) (n : Int) :
    (terminalUpdate t j (some GoErr.canceled) n).status = JobStatus.failed ∧
      (terminalUpdate t j (some GoErr.canceled) n).error = "context canceled" := by
  simp [terminalUpdate, GoErr.message]

theorem running_le_of_reach {w c : Nat} {q0 : List String} {st : ProcState}
    (h : ProcReach w c (procInit q0) st) : st.running.length ≤ w := by
  have hs : slotsUsed st ≤ w := by
    induction h with
    | refl => simp [procInit, slotsUsed]
    | tail hr hstep ih => exact slotsUsed_le_of_step hstep ih
  simp only [slotsUsed] at hs
  omega

/-! Claim theorems. -/

/-- C1: the claim states that every job whose run exceeds the channel
`Timeout` ends with Status *timed_out* and Error "job timed out after
{timeout}", for application jobs run through the supervisor as well as for
payload-only jobs.  Evaluating the code at the repository's own timeout
scenario (`sleep 1` under a 100 ms deadline) shows the application half is
violated: `Execute` wraps every failure in a fresh `fmt.Errorf` error, so
`processJob`'s identity comparison against the `context.DeadlineExceeded`
sentinel never fires for application jobs — whatever error the
termination protocol produced, the job is marked *failed* (first and second
conjuncts); only the payload-only path yields *timed_out* with the claimed
message (third and fourth conjuncts). -/
theorem C1_application_timeout_marked_failed :
    (∀ e : Option GoErr,
      (processJob 100000000 1024 timeoutAppJob [] "exec_1" ⟨.ctxDone e, [], []⟩
          .timerFired 0 1).1.status ≠ JobStatus.timedOut) ∧
    (processJob 100000000 1024 timeoutAppJob [] "exec_1"
        ⟨.ctxDone (some (.exitError (-1))), [], []⟩ .timerFired 0 1).1.status =
      JobStatus.failed ∧
    (processJob 100000000 1024 ({ timeoutAppJob with application := none }) [] "exec_2"
        ⟨.completed none, [], []⟩ (.ctxDone .deadlineExceeded) 0 1).1.status =
      JobStatus.timedOut ∧
    (processJob 100000000 1024 ({ timeoutAppJob with application := none }) [] "exec_2"
        ⟨.completed none, [], []⟩ (.ctxDone .deadlineExceeded) 0 1).1.error =
      "job timed out after " ++ formatDuration 100000000 := by
  refine ⟨?_, by decide, by decide, by decide⟩
  intro e
  rw [processJob_app_eq 100000000 1024 timeoutAppJob [] "exec_1"
    ⟨.ctxDone e, [], []⟩ .timerFired 0 1 sleepApp rfl]
  rcases Execute_err_cases [] "exec_1" 1024 [] [] (.ctxDone e) with h | ⟨m, h⟩ <;>
    rw [h]
  · rw [terminalUpdate_none]
    decide
  · rw [terminalUpdate_errorf]
    decide

/-- C2 counterexample: a payload-only job dequeued before shutdown whose
context is cancelled by the root scope ends with Status *failed* (its error
being the "context canceled" message), not *cancelled* as the claim
states. -/
theorem C2_counterexample_cancel_marked_failed :
    (processJob 100000000 1024 payloadJob [] "exec_1" ⟨.completed none, [], []⟩
        (.ctxDone .canceled) 0 1).1.status = JobStatus.failed ∧
    (processJob 100000000 1024 payloadJob [] "exec_1" ⟨.completed none, [], []⟩
        (.ctxDone .canceled) 0 1).1.status ≠ JobStatus.cancelled := by
  decide

/-- C2 amended: `processJob` never assigns the status *cancelled* to any job
(first conjunct — the engine has no code path producing it); a payload-only
job whose context is cancelled by shutdown ends with terminal Status
*failed* and Error "context canceled" (second and third conjuncts). -/
theorem C2_amended_cancelled_jobs_marked_failed (t m : Int) (job : JobPayload)
    (reg : List String) (id : String) (ar : AppRun) (now endNow : Int)
    (hpayload : job.application = none) :
    (∀ (t2 m2 : Int) (job2 : JobPayload) (reg2 : List String) (id2 : String)
        (ar2 : AppRun) (rr2 : RegularOutcome) (n2 e2 : Int),
        (processJob t2 m2 job2 reg2 id2 ar2 rr2 n2 e2).1.status ≠ JobStatus.cancelled) ∧
    (processJob t m job reg id ar (.ctxDone .canceled) now endNow).1.status =
      JobStatus.failed ∧
    (processJob t m job reg id ar (.ctxDone .canceled) now endNow).1.error =
      "context canceled" := by
  refine ⟨fun t2 m2 job2 reg2 id2 ar2 rr2 n2 e2 =>
    processJob_status_ne_cancelled t2 m2 job2 reg2 id2 ar2 rr2 n2 e2, ?_, ?_⟩
  all_goals
    rw [processJob_payload_eq t m job reg id ar (.ctxDone .canceled) now endNow hpayload]
  · exact (terminalUpdate_canceled t _ endNow).1
  · exact (terminalUpdate_canceled t _ endNow).2

/-- C2 amended, witness at a concrete payload-only job. -/
theorem C2_amended_witness :
    payloadJob.application = none ∧
    (processJob 1000000000 0 payloadJob [] "exec_1" ⟨.completed none, [], []⟩
        (.ctxDone .canceled) 0 1).1.status = JobStatus.failed :=
  ⟨rfl, (C2_amended_cancelled_jobs_marked_failed 1000000000 0 payloadJob [] "exec_1"
      ⟨.completed none, [], []⟩ 0 1 rfl).2.1⟩

/-- C3: the claim (and §4.4's statistics contract) says a job reaching
terminal Status *failed* or *timed_out* increments the channel's
`FailedJobs`.  The code never increments `FailedJobs` anywhere — the
`Processor` holds no handle on the statistics map — so running the full
submit → dispatch → process pipeline on a fresh scheduler leaves
`FailedJobs` at 0 even though the job ended *timed_out* (first two
conjuncts) resp. *failed* (last two conjuncts). -/
theorem C3_failed_jobs_never_incremented :
    timedOutPipeline.2.map (fun r => r.1.status) = some JobStatus.timedOut ∧
    mapLookup timedOutPipeline.1.stats "timeout-channel" =
      some { workers := 0, activeJobs := [], totalJobs := 1, failedJobs := 0,
             lastJobTime := some 0 } ∧
    failedPipeline.2.map (fun r => r.1.status) = some JobStatus.failed ∧
    mapLookup failedPipeline.1.stats "timeout-channel" =
      some { workers := 0, activeJobs := [], totalJobs := 1, failedJobs := 0,
             lastJobTime := some 0 } := by
  decide

/-- C4: for a valid job aimed at an existing channel whose queue capacity is
`ChannelBufferSize`: when the queue already holds `ChannelBufferSize` jobs,
`SubmitJob` returns the queue-full error and the scheduler — queue,
`TotalJobs`, `LastJobTime` — is entirely unchanged; when there is room, it
returns nil, appends the pending job to the queue, increments `TotalJobs` by
exactly one and sets `LastJobTime`. -/
theorem C4_queue_admission (s : Scheduler) (job : JobPayload) (now : Int)
    (ch : Channel) (st : ChannelStats)
    (hv : job.Validate = none)
    (hch : mapLookup s.channels job.channel = some ch)
    (hst : mapLookup s.stats job.channel = some st)
    (hcap : ch.capacity = s.config.channelBufferSize) :
    ((s.config.channelBufferSize ≤ (ch.jobs.length : Int)) →
        SubmitJob s job now = (s, some ("channel " ++ job.channel ++ " is full"))) ∧
    (((ch.jobs.length : Int) < s.config.channelBufferSize) →
        (SubmitJob s job now).2 = none ∧
        mapLookup (SubmitJob s job now).1.stats job.channel =
          some ({ st with totalJobs := st.totalJobs + 1, lastJobTime := some now }) ∧
        mapLookup (SubmitJob s job now).1.channels job.channel =
          some ({ ch with jobs := ch.jobs ++
            [{ job with status := JobStatus.pending, startTime := some now }] })) := by
  have hgc : getOrCreateChannel s job = (s, ch) := by
    unfold getOrCreateChannel
    rw [hch]
  constructor
  · intro hfull
    have hnot : ¬ ((ch.jobs.length : Int) < ch.capacity) := by
      rw [hcap]
      omega
    simp only [SubmitJob, hv, hgc, hnot, if_false]
  · intro hroom
    have hlt : ((ch.jobs.length : Int) < ch.capacity) := by
      rw [hcap]
      exact hroom
    simp only [SubmitJob, hv, hgc, hlt, if_true, updateStatsForNewJob, hst,
      mapLookup_mapInsert_self]
    exact ⟨trivial, trivial, trivial⟩

/-- C4 witness: the queue-full scenario (capacity-1 channel with one queued
job) is rejected with the scheduler unchanged; submitting to the empty
capacity-1 channel succeeds and bumps `TotalJobs` from 0 to 1 with
`LastJobTime` stamped. -/
theorem C4_queue_admission_witness :
    jobFull.Validate = none ∧
    (schedFull.config.channelBufferSize ≤ (chanOne.jobs.length : Int)) ∧
    SubmitJob schedFull jobFull 5 =
      (schedFull, some ("channel " ++ jobFull.channel ++ " is full")) ∧
    ((chanEmpty.jobs.length : Int) < schedOpen.config.channelBufferSize) ∧
    (SubmitJob schedOpen jobOpen 5).2 = none ∧
    mapLookup (SubmitJob schedOpen jobOpen 5).1.stats jobOpen.channel =
      some ({ ChannelStats.zero with totalJobs := ChannelStats.zero.totalJobs + 1, lastJobTime := some 5 }) :=
  ⟨by decide, by decide,
   (C4_queue_admission schedFull jobFull 5 chanOne statsOne
      (by decide) (by decide) (by decide) (by decide)).1 (by decide),
   by decide,
   ((C4_queue_admission schedOpen jobOpen 5 chanEmpty ChannelStats.zero
      (by decide) (by decide) (by decide) (by decide)).2 (by decide)).1,
   ((C4_queue_admission schedOpen jobOpen 5 chanEmpty ChannelStats.zero
      (by decide) (by decide) (by decide) (by decide)).2 (by decide)).2.1⟩

/-- C5 counterexample: when `cmd.Start()` fails, `Execute` returns early with
the result's `ExitCode` still at its zero value 0 — not `-1` as the claim
states for spawn errors — together with a non-nil error. -/
theorem C5_counterexample_spawn_error_exit_code :
    (Execute [] "exec_1" 0 [] [] (.spawnFailure "no such file")).err ≠ none ∧
    (Execute [] "exec_1" 0 [] [] (.spawnFailure "no such file")).result.exitCode = 0 ∧
    ¬ (Execute [] "exec_1" 0 [] [] (.spawnFailure "no such file")).result.exitCode = -1 := by
  decide

/-- C5 amended: if the child exits with status `c`, `ExitCode = c` and the
returned error is non-nil; if execution fails after start independently of
exit (e.g. signal-delivery or kill failure, or a context sentinel),
`ExitCode = -1` with a non-nil error; a spawn failure returns early with
`ExitCode = 0` (the zero value) and empty output, again with a non-nil
error; and on every post-start return — error or not — the captured
(possibly truncated) stdout and stderr are present in the `Result`. -/
theorem C5_amended_exit_code_encoding (reg : List String) (id : String) (lim : Int)
    (ow ew : List (List Nat)) (oc : ExecOutcome) :
    (∀ c : Int,
        (oc = .completed (some (.exitError c)) ∨ oc = .ctxDone (some (.exitError c))) →
        (Execute reg id lim ow ew oc).result.exitCode = c ∧
        (Execute reg id lim ow ew oc).err ≠ none) ∧
    (∀ e : GoErr, (∀ c : Int, e ≠ .exitError c) →
        (oc = .completed (some e) ∨ oc = .ctxDone (some e)) →
        (Execute reg id lim ow ew oc).result.exitCode = -1 ∧
        (Execute reg id lim ow ew oc).err ≠ none) ∧
    (∀ m : String, oc = .spawnFailure m →
        (Execute reg id lim ow ew oc).result.exitCode = 0 ∧
        (Execute reg id lim ow ew oc).result.stdout = [] ∧
        (Execute reg id lim ow ew oc).result.stderr = [] ∧
        (Execute reg id lim ow ew oc).err ≠ none) ∧
    (((∃ w, oc = .completed w) ∨ (∃ w, oc = .ctxDone w)) →
        (Execute reg id lim ow ew oc).result.stdout = capture lim ow ∧
        (Execute reg id lim ow ew oc).result.stderr = capture lim ew) := by
  refine ⟨?_, ?_, ?_, ?_⟩
  · intro c hc
    rcases hc with h | h <;> subst h <;> exact ⟨rfl, by simp [Execute, executeFinish]⟩
  · intro e he h
    have hcode : (match e with | GoErr.exitError c => c | _ => (-1 : Int)) = -1 := by
      cases e with
      | exitError c => exact absurd rfl (he c)
      | _ => rfl
    rcases h with h | h <;> subst h <;>
      exact ⟨hcode, by simp [Execute, executeFinish]⟩
  · intro m hm
    subst hm
    exact ⟨rfl, rfl, rfl, by simp [Execute]⟩
  · intro h
    rcases h with ⟨w, h⟩ | ⟨w, h⟩ <;> subst h <;> cases w <;>
      exact ⟨rfl, rfl⟩

/-- C5 amended, witness: a non-zero exit (code 3), a post-start non-exit
failure, a spawn failure, and output presence, each at concrete inputs. -/
theorem C5_amended_exit_code_witness :
    (Execute [] "exec_1" 0 [] [] (.completed (some (.exitError 3)))).result.exitCode = 3 ∧
    (Execute [] "exec_2" 0 [] [] (.ctxDone (some .canceled))).result.exitCode = -1 ∧
    (Execute [] "exec_3" 0 [] [] (.spawnFailure "boom")).result.exitCode = 0 ∧
    (Execute [] "exec_4" 0 [[1, 2]] [] (.completed none)).result.stdout =
      capture 0 [[1, 2]] :=
  ⟨((C5_amended_exit_code_encoding [] "exec_1" 0 [] [] _).1 3 (Or.inl rfl)).1,
   ((C5_amended_exit_code_encoding [] "exec_2" 0 [] [] _).2.1 .canceled
      (by intro c; simp) (Or.inr rfl)).1,
   ((C5_amended_exit_code_encoding [] "exec_3" 0 [] [] _).2.2.1 "boom" rfl).1,
   ((C5_amended_exit_code_encoding [] "exec_4" 0 [[1, 2]] [] _).2.2.2
      (Or.inl ⟨none, rfl⟩)).1⟩

theorem Execute_output_le (reg : List String) (id : String) (lim : Int)
    (ow ew : List (List Nat)) (oc : ExecOutcome) (h : 0 < lim) :
    ((Execute reg id lim ow ew oc).result.stdout.length : Int) ≤ lim ∧
    ((Execute reg id lim ow ew oc).result.stderr.length : Int) ≤ lim := by
  cases oc with
  | spawnFailure m =>
      simp only [Execute, List.length_nil]
      omega
  | completed e =>
      cases e <;>
        exact ⟨capture_length_le lim ow h, capture_length_le lim ew h⟩
  | ctxDone e =>
      cases e <;>
        exact ⟨capture_length_le lim ow h, capture_length_le lim ew h⟩

/-- C6: with a positive budget `limit = MaxOutputSize`, a `LimitedWriter`
forwards at most `limit` bytes in total into its underlying buffer over any
sequence of writes (first conjunct); once the remaining budget is not
positive, a write forwards nothing — writer state unchanged, 0 bytes
reported — and reports the short-write error (second conjunct);
consequently, for every `Execute` run with `OutputLimit = limit`, the
captured stdout and stderr each hold at most `limit` bytes (third and
fourth conjuncts). -/
theorem C6_output_limiter_bounds (limit : Int) (ws ow ew : List (List Nat))
    (reg : List String) (id : String) (oc : ExecOutcome)
    (l : LimitedWriter) (p : List Nat)
    (hlim : 0 < limit) (hl : l.n ≤ 0) :
    ((runWrites ({ buf := [], n := limit }) ws).buf.length : Int) ≤ limit ∧
    l.write p = (l, 0, true) ∧
    ((Execute reg id limit ow ew oc).result.stdout.length : Int) ≤ limit ∧
    ((Execute reg id limit ow ew oc).result.stderr.length : Int) ≤ limit := by
  refine ⟨?_, LimitedWriter.write_of_nonpos l p hl,
    (Execute_output_le reg id limit ow ew oc hlim).1,
    (Execute_output_le reg id limit ow ew oc hlim).2⟩
  have hc := capture_length_le limit ws hlim
  unfold capture at hc
  simp only [hlim, if_true] at hc
  exact hc

/-- C6 witness: budget 3 against two writes of two bytes each (five bytes
offered in total, three forwarded); an exhausted writer rejects a further
write; a concrete `Execute` run respects the bound on both streams. -/
theorem C6_output_limiter_bounds_witness :
    (0 : Int) < 3 ∧
    (LimitedWriter.mk [1, 2, 3] 0).n ≤ 0 ∧
    ((runWrites ({ buf := [], n := 3 }) [[1, 2], [3, 4], [5]]).buf.length : Int) ≤ 3 ∧
    (LimitedWriter.mk [1, 2, 3] 0).write [9] = (LimitedWriter.mk [1, 2, 3] 0, 0, true) ∧
    ((Execute [] "exec_1" 3 [[1, 2], [3, 4], [5]] [[6]]
        (.completed none)).result.stdout.length : Int) ≤ 3 :=
  ⟨by decide, by decide,
   (C6_output_limiter_bounds 3 [[1, 2], [3, 4], [5]] [[1, 2], [3, 4], [5]] [[6]]
      [] "exec_1" (.completed none) (LimitedWriter.mk [1, 2, 3] 0) [9]
      (by decide) (by decide)).1,
   (C6_output_limiter_bounds 3 [[1, 2], [3, 4], [5]] [[1, 2], [3, 4], [5]] [[6]]
      [] "exec_1" (.completed none) (LimitedWriter.mk [1, 2, 3] 0) [9]
      (by decide) (by decide)).2.1,
   (C6_output_limiter_bounds 3 [[1, 2], [3, 4], [5]] [[1, 2], [3, 4], [5]] [[6]]
      [] "exec_1" (.completed none) (LimitedWriter.mk [1, 2, 3] 0) [9]
      (by decide) (by decide)).2.2.1⟩

/-- C7: on the first submission for a channel name, the created channel has
`Workers = job.Workers` when the hint is positive and `DefaultWorkers`
otherwise, `Timeout = job.Timeout` when positive and `DefaultTimeout`
otherwise, queue capacity `ChannelBufferSize` and an empty queue, and it is
registered under the channel name; any submission that finds the channel
present returns it with the scheduler — hence the channel's `Workers` and
`Timeout` — unchanged, whatever hints the later job carries; in particular
a second submission right after creation returns the created channel
unchanged. -/
theorem C7_channel_creation_first_writer_wins (s : Scheduler) (job job2 : JobPayload)
    (hnew : mapLookup s.channels job.channel = none) :
    ((getOrCreateChannel s job).2.workers =
        (if 0 < job.workers then job.workers else s.config.defaultWorkers)) ∧
    ((getOrCreateChannel s job).2.timeout =
        (if 0 < job.timeout then job.timeout else s.config.defaultTimeout)) ∧
    ((getOrCreateChannel s job).2.capacity = s.config.channelBufferSize) ∧
    ((getOrCreateChannel s job).2.jobs = []) ∧
    (mapLookup (getOrCreateChannel s job).1.channels job.channel =
        some (getOrCreateChannel s job).2) ∧
    (∀ (s2 : Scheduler) (ch : Channel),
        mapLookup s2.channels job2.channel = some ch →
        getOrCreateChannel s2 job2 = (s2, ch)) ∧
    (job2.channel = job.channel →
        getOrCreateChannel (getOrCreateChannel s job).1 job2 =
          ((getOrCreateChannel s job).1, (getOrCreateChannel s job).2)) := by
  have hworkers : (if job.workers ≤ 0 then s.config.defaultWorkers else job.workers) =
      (if 0 < job.workers then job.workers else s.config.defaultWorkers) := by
    by_cases h : job.workers ≤ 0
    · have h2 : ¬ 0 < job.workers := by omega
      simp [h, h2]
    · have h2 : 0 < job.workers := by omega
      simp [h, h2]
  have htimeout : (if job.timeout ≤ 0 then s.config.defaultTimeout else job.timeout) =
      (if 0 < job.timeout then job.timeout else s.config.defaultTimeout) := by
    by_cases h : job.timeout ≤ 0
    · have h2 : ¬ 0 < job.timeout := by omega
      simp [h, h2]
    · have h2 : 0 < job.timeout := by omega
      simp [h, h2]
  have hexist : ∀ (s2 : Scheduler) (ch : Channel),
      mapLookup s2.channels job2.channel = some ch →
      getOrCreateChannel s2 job2 = (s2, ch) := by
    intro s2 ch hch
    unfold getOrCreateChannel
    rw [hch]
  refine ⟨?_, ?_, ?_, ?_, ?_, hexist, ?_⟩
  · simp only [getOrCreateChannel, hnew]
    exact hworkers
  · simp only [getOrCreateChannel, hnew]
    exact htimeout
  · simp only [getOrCreateChannel, hnew]
  · simp only [getOrCreateChannel, hnew]
  · simp only [getOrCreateChannel, hnew, mapLookup_mapInsert_self]
  · intro hsame
    apply hexist
    rw [hsame]
    simp only [getOrCreateChannel, hnew, mapLookup_mapInsert_self]

/-- C7 witness: a fresh scheduler; first submission with hints
`Workers = 3`, `Timeout = 0` creates the channel with 3 workers and the
default timeout at capacity 10; a second submission with different hints
returns the same channel and leaves the scheduler unchanged. -/
theorem C7_channel_creation_witness :
    mapLookup schedFresh.channels payloadJob.channel = none ∧
    (getOrCreateChannel schedFresh ({ payloadJob with workers := 3 })).2.workers =
      (if 0 < (3 : Int) then (3 : Int) else schedFresh.config.defaultWorkers) ∧
    (getOrCreateChannel schedFresh ({ payloadJob with workers := 3 })).2.capacity =
      schedFresh.config.channelBufferSize ∧
    getOrCreateChannel (getOrCreateChannel schedFresh ({ payloadJob with workers := 3 })).1
        ({ payloadJob with workers := 7, timeout := 42 }) =
      ((getOrCreateChannel schedFresh ({ payloadJob with workers := 3 })).1,
        (getOrCreateChannel schedFresh ({ payloadJob with workers := 3 })).2) :=
  ⟨rfl,
   (C7_channel_creation_first_writer_wins schedFresh ({ payloadJob with workers := 3 })
      ({ payloadJob with workers := 7, timeout := 42 }) rfl).1,
   (C7_channel_creation_first_writer_wins schedFresh ({ payloadJob with workers := 3 })
      ({ payloadJob with workers := 7, timeout := 42 }) rfl).2.2.1,
   (C7_channel_creation_first_writer_wins schedFresh ({ payloadJob with workers := 3 })
      ({ payloadJob with workers := 7, timeout := 42 }) rfl).2.2.2.2.2.2 rfl⟩

/-- C8: a channel created under a validated configuration has
`Workers ≥ 1` (first conjunct: the hint is used only when positive,
otherwise `DefaultWorkers ≥ 1` applies); and along every interleaving of
dispatcher, worker-goroutine, and queue events — each job acquiring one slot
of the capacity-`Workers` semaphore before `processJob` and releasing it on
its exit path — the number of jobs concurrently inside `processJob`
(status *running*) never exceeds `Workers` (second conjunct). -/
theorem C8_worker_pool_bound (s : Scheduler) (job : JobPayload)
    (hcfg : s.config.Validate = none)
    (hnew : mapLookup s.channels job.channel = none) :
    1 ≤ (getOrCreateChannel s job).2.workers ∧
    (∀ (q0 : List String) (st : ProcState),
        ProcReach (getOrCreateChannel s job).2.workers.toNat
          s.config.channelBufferSize.toNat (procInit q0) st →
        st.running.length ≤ (getOrCreateChannel s job).2.workers.toNat) := by
  have hdw : 1 ≤ s.config.defaultWorkers := by
    unfold Config.Validate at hcfg
    split_ifs at hcfg
    omega
  have hw : 1 ≤ (getOrCreateChannel s job).2.workers := by
    simp only [getOrCreateChannel, hnew]
    by_cases h : job.workers ≤ 0
    · simp only [h, if_true]
      exact hdw
    · simp only [h, if_false]
      omega
  exact ⟨hw, fun q0 st hreach => running_le_of_reach hreach⟩

/-- C8 witness: with the test configuration (`DefaultWorkers = 2`) and a
hint-less job, the created channel has 2 workers; the state reached by
dispatching the single queued job and entering `processJob` has one running
job, within the bound. -/
theorem C8_worker_pool_bound_witness :
    cfgTest.Validate = none ∧
    mapLookup schedFresh.channels payloadJob.channel = none ∧
    1 ≤ (getOrCreateChannel schedFresh payloadJob).2.workers ∧
    (ProcState.mk [] [] ["a"] 0).running.length ≤
      (getOrCreateChannel schedFresh payloadJob).2.workers.toNat := by
  refine ⟨rfl, rfl, (C8_worker_pool_bound schedFresh payloadJob rfl rfl).1, ?_⟩
  refine (C8_worker_pool_bound schedFresh payloadJob rfl rfl).2 ["a"] _ ?_
  refine ProcReach.tail (b := ProcState.mk [] ["a"] [] 0)
    (ProcReach.tail (b := procInit ["a"]) (ProcReach.refl _) ?_) ?_
  · exact ProcStep.dispatch _ "a" [] rfl (by decide)
  · exact ProcStep.enter _ "a" (by decide)

/-- C9 counterexample: starting from a live scheduler (open log), the first
`Shutdown` returns nil but a second `Shutdown` returns a non-nil close-log
error — neither a no-op nor the same status as the first. -/
theorem C9_counterexample_second_shutdown_errors :
    (Shutdown (SchedulerRT.mk false true [])).2 = none ∧
    (Shutdown (Shutdown (SchedulerRT.mk false true [])).1).2 ≠ none ∧
    (Shutdown (Shutdown (SchedulerRT.mk false true [])).1).2 ≠
      (Shutdown (SchedulerRT.mk false true [])).2 := by
  decide

/-- C9 amended: `Shutdown` after `Shutdown` is safe on state — the second
call returns the scheduler state exactly as the first left it (cancelled,
registry empty, log closed) — but it is not status-idempotent: the first
call returns nil while the second returns the wrapped error from re-closing
the already-closed process log. -/
theorem C9_amended_shutdown_state_idempotent (s : SchedulerRT)
    (h : s.logOpen = true) :
    (Shutdown s).2 = none ∧
    (Shutdown (Shutdown s).1).1 = (Shutdown s).1 ∧
    (Shutdown (Shutdown s).1).2 =
      some "failed to close process log: file already closed" := by
  simp [Shutdown, h]

/-- C9 amended, witness at a live scheduler with one registered process. -/
theorem C9_amended_shutdown_witness :
    (SchedulerRT.mk false true ["p1"]).logOpen = true ∧
    (Shutdown (SchedulerRT.mk false true ["p1"])).2 = none ∧
    (Shutdown (Shutdown (SchedulerRT.mk false true ["p1"])).1).1 =
      (Shutdown (SchedulerRT.mk false true ["p1"])).1 :=
  ⟨rfl,
   (C9_amended_shutdown_state_idempotent (SchedulerRT.mk false true ["p1"]) rfl).1,
   (C9_amended_shutdown_state_idempotent (SchedulerRT.mk false true ["p1"]) rfl).2.1⟩

/-- C10: for a fresh execution id, the id is in the registry (as
`ListProcesses` reports it) between `Execute`'s registration — performed
before the child is started — and its deferred removal (first conjunct);
after `Execute` returns, on every outcome including spawn failure and
cancellation, the registry is back to its prior contents (second conjunct);
and `KillProcess` on an id not in the registry returns the not-found error
with the registry unchanged (third conjunct). -/
theorem C10_registry_in_flight_only (reg : List String) (id : String) (lim : Int)
    (ow ew : List (List Nat)) (oc : ExecOutcome) (kerr : Option String)
    (hfresh : id ∉ reg) :
    id ∈ ListProcesses (Execute reg id lim ow ew oc).regDuring ∧
    (Execute reg id lim ow ew oc).regFinal = reg ∧
    KillProcess reg id kerr = (reg, some ("process " ++ id ++ " not found")) := by
  refine ⟨?_, ?_, ?_⟩
  · simp only [ListProcesses]
    rw [Execute_regDuring]
    exact mem_regAdd_self reg id
  · rw [Execute_regFinal]
    exact regRemove_regAdd_of_not_mem reg id hfresh
  · unfold KillProcess
    simp [hfresh]

/-- C10 witness: a fresh id against a one-entry registry, over a completed
run, a spawn failure, and a cancellation, plus a not-found kill. -/
theorem C10_registry_in_flight_only_witness :
    "exec_9" ∉ (["exec_1"] : List String) ∧
    "exec_9" ∈ ListProcesses
      (Execute ["exec_1"] "exec_9" 0 [] [] (.completed none)).regDuring ∧
    (Execute ["exec_1"] "exec_9" 0 [] [] (.completed none)).regFinal = ["exec_1"] ∧
    (Execute ["exec_1"] "exec_9" 0 [] [] (.spawnFailure "boom")).regFinal = ["exec_1"] ∧
    (Execute ["exec_1"] "exec_9" 0 [] [] (.ctxDone (some .canceled))).regFinal =
      ["exec_1"] ∧
    KillProcess ["exec_1"] "exec_9" none =
      (["exec_1"], some ("process " ++ "exec_9" ++ " not found")) :=
  ⟨by decide,
   (C10_registry_in_flight_only ["exec_1"] "exec_9" 0 [] [] (.completed none) none
      (by decide)).1,
   (C10_registry_in_flight_only ["exec_1"] "exec_9" 0 [] [] (.completed none) none
      (by decide)).2.1,
   (C10_registry_in_flight_only ["exec_1"] "exec_9" 0 [] [] (.spawnFailure "boom") none
      (by decide)).2.1,
   (C10_registry_in_flight_only ["exec_1"] "exec_9" 0 [] []
      (.ctxDone (some .canceled)) none (by decide)).2.1,
   (C10_registry_in_flight_only ["exec_1"] "exec_9" 0 [] [] (.completed none) none
      (by decide)).2.2⟩

end JobScheduler
